import Mathlib

/-!
Verification of `scripts/pre-commit.py`, a ten-line commit gate:

```
status = subprocess.call(["cargo", "fmt", "--check", "--quiet"])
if status != 0:
    subprocess.check_call(["cargo", "fmt"])
    print("\x1b[102;1m Formatted. Please run git add\x1b[0m")
    exit(status)

subprocess.check_call(["cargo", "test"])
```

The script is a pure function of the exit statuses of the three
subprocesses it may start.  We embed a run as a trace of observable
events (subprocess invocations and lines written to standard output)
together with the script's own final exit status.

Python semantics used by the embedding:
* `subprocess.call cmd` starts `cmd` and returns its exit status;
* `subprocess.check_call cmd` starts `cmd` and raises
  `CalledProcessError` when the status is non-zero; an unhandled
  exception terminates the interpreter with exit status 1 and executes
  nothing further in the script;
* `exit s` terminates the interpreter with exit status `s`.
-/

namespace PreCommit

/-- Argument list of the formatting check at line 4 of the script. -/
def fmtCheckCmd : List String := ["cargo", "fmt", "--check", "--quiet"]

/-- Argument list of the formatting fixer at line 6 of the script. -/
def fmtFixCmd : List String := ["cargo", "fmt"]

/-- Argument list of the test runner at line 10 of the script. -/
def testCmd : List String := ["cargo", "test"]

/-- The colored notice printed at line 7 of the script. -/
def noticeLine : String := "\x1b[102;1m Formatted. Please run git add\x1b[0m"

/-- An observable event of one run of the gate, in order of occurrence:
starting a subprocess with a given argument list, or writing one line to
standard output. -/
inductive Event where
  | run (cmd : List String)
  | print (line : String)
deriving DecidableEq, Repr

/-- The observable outcome of one run: the events in the order they
happened, and the gate process's own exit status (taken after the last
event). -/
structure Outcome where
  events : List Event
  exitStatus : Nat
deriving DecidableEq, Repr

/-- The lines the gate itself writes to standard output, in order. -/
def outputLines (o : Outcome) : List String :=
  o.events.filterMap fun e =>
    match e with
    | .run _ => none
    | .print l => some l

/-- Shallow embedding of the script body.  The three arguments are the
exit statuses that `cargo fmt --check --quiet`, `cargo fmt` and
`cargo test` would return if started; the gate starts each of them only
as the control flow of the script dictates.

Line-by-line correspondence with the source:
* `checkStatus` is the value bound to `status` by `subprocess.call`
  (line 4); that subprocess is always started first.
* When `status != 0` (line 5), `subprocess.check_call(["cargo", "fmt"])`
  (line 6) starts the fixer; a non-zero `fixStatus` raises an unhandled
  `CalledProcessError`, so the interpreter exits with status 1 before
  the `print` of line 7.  A zero `fixStatus` lets line 7 print the
  notice and line 8 `exit(status)` with the checker's status.
* When `status == 0`, `subprocess.check_call(["cargo", "test"])`
  (line 10) starts the test runner; a non-zero `testStatus` raises an
  unhandled `CalledProcessError` and the interpreter exits with
  status 1, while a zero `testStatus` lets the script fall off the end
  and exit with status 0. -/
def gate (checkStatus fixStatus testStatus : Nat) : Outcome :=
  if checkStatus ≠ 0 then
    if fixStatus ≠ 0 then
      { events := [.run fmtCheckCmd, .run fmtFixCmd], exitStatus := 1 }
    else
      { events := [.run fmtCheckCmd, .run fmtFixCmd, .print noticeLine],
        exitStatus := checkStatus }
  else
    if testStatus ≠ 0 then
      { events := [.run fmtCheckCmd, .run testCmd], exitStatus := 1 }
    else
      { events := [.run fmtCheckCmd, .run testCmd], exitStatus := 0 }

/-- The script as invoked by the hook mechanism.  The source references
neither `sys.argv` nor `os.environ`, so the command-line arguments and
the environment are received but never read: the outcome is a function
of the three subprocess statuses alone. -/
def gateCLI (_argv : List String) (_env : List (String × String))
    (checkStatus fixStatus testStatus : Nat) : Outcome :=
  gate checkStatus fixStatus testStatus

/-- On the drift branch with a succeeding fixer the whole outcome is fixed:
checker started, fixer started, notice printed, exit with the checker's
status. -/
theorem gate_drift_eq (s f t : Nat) (hs : s ≠ 0) (hf : f = 0) :
    gate s f t =
      { events := [.run fmtCheckCmd, .run fmtFixCmd, .print noticeLine],
        exitStatus := s } := by
  simp [gate, hs, hf]

/-- Event list on the drift branch with a succeeding fixer. -/
theorem gate_drift_events (s f t : Nat) (hs : s ≠ 0) (hf : f = 0) :
    (gate s f t).events =
      [.run fmtCheckCmd, .run fmtFixCmd, .print noticeLine] := by
  rw [gate_drift_eq s f t hs hf]

/-- Event list on the drift branch with a failing fixer: the unhandled
`CalledProcessError` stops the script right after the fixer. -/
theorem gate_fixfail_events (c f t : Nat) (hc : c ≠ 0) (hf : f ≠ 0) :
    (gate c f t).events = [.run fmtCheckCmd, .run fmtFixCmd] := by
  simp [gate, hc, hf]

/-- On the success branch the events are fixed: checker started, then the
test runner started. -/
theorem gate_pass_events (f t : Nat) :
    (gate 0 f t).events = [.run fmtCheckCmd, .run testCmd] := by
  by_cases ht : t = 0 <;> simp [gate, ht]

/-- C1, counterexample: the claim quantifies over every run with a
non-zero checker status, but when the fixer also fails (checker 2,
fixer 1) the gate prints no notice line and exits with 1, not with the
checker's status 2. -/
theorem C1_counterexample :
    ¬ (outputLines (gate 2 1 0) = [noticeLine] ∧ (gate 2 1 0).exitStatus = 2) := by
  decide

/-- C1, amended: for every run in which the format-checker returns a
non-zero status `s` AND the format-fixer succeeds, the gate starts the
fixer exactly once, prints exactly the one notice line, never starts the
test runner, and exits with status `s`. -/
theorem C1_drift_branch (s f t : Nat) (hs : s ≠ 0) (hf : f = 0) :
    (gate s f t).events.count (.run fmtFixCmd) = 1 ∧
    outputLines (gate s f t) = [noticeLine] ∧
    Event.run testCmd ∉ (gate s f t).events ∧
    (gate s f t).exitStatus = s := by
  have hev := gate_drift_events s f t hs hf
  have hex : (gate s f t).exitStatus = s := by
    rw [gate_drift_eq s f t hs hf]
  refine ⟨?_, ?_, ?_, hex⟩
  · simp only [hev]
    decide
  · simp only [outputLines, hev]
    decide
  · simp only [hev]
    decide

/-- C1, witness: the amended theorem at checker status 2, fixer status
0, test status 0. -/
theorem C1_drift_branch_witness :
    (gate 2 0 0).events.count (.run fmtFixCmd) = 1 ∧
    outputLines (gate 2 0 0) = [noticeLine] ∧
    Event.run testCmd ∉ (gate 2 0 0).events ∧
    (gate 2 0 0).exitStatus = 2 :=
  C1_drift_branch 2 0 0 (by decide) rfl

/-- C2, counterexample: with the checker at 0 and the test runner at 2,
the gate exits with 1, not with the test runner's status 2: the non-zero
status is raised as an unhandled `CalledProcessError`, so the status is
transformed, contrary to the claim. -/
theorem C2_counterexample : ¬ ((gate 0 0 2).exitStatus = 2) := by
  decide

/-- C2, amended: for every run in which the format-checker returns 0,
the gate starts the test runner exactly once; it exits with 0 when the
test runner exits 0 and with 1 (not the test runner's status) when the
test runner exits non-zero. -/
theorem C2_success_branch (f t : Nat) :
    (gate 0 f t).events.count (.run testCmd) = 1 ∧
    (gate 0 f t).exitStatus = (if t = 0 then 0 else 1) := by
  constructor
  · simp only [gate_pass_events]
    decide
  · by_cases ht : t = 0 <;> simp [gate, ht]

/-- C3: when the checker exits 0 and the test runner exits 0, the gate
exits with 0 and writes nothing to standard output (for any status the
never-started fixer would have had). -/
theorem C3_all_green (f : Nat) :
    (gate 0 f 0).exitStatus = 0 ∧ outputLines (gate 0 f 0) = [] := by
  constructor
  · simp [gate]
  · simp only [outputLines, gate_pass_events]
    decide

/-- C4: when the checker returns non-zero and the fixer also fails, the
run stops right after the fixer: the notice is not printed, nothing is
written to standard output, and the test runner is never started. -/
theorem C4_fixer_failure (c f t : Nat) (hc : c ≠ 0) (hf : f ≠ 0) :
    (gate c f t).events = [.run fmtCheckCmd, .run fmtFixCmd] ∧
    outputLines (gate c f t) = [] ∧
    Event.run testCmd ∉ (gate c f t).events := by
  have hev := gate_fixfail_events c f t hc hf
  refine ⟨hev, ?_, ?_⟩
  · simp only [outputLines, hev]
    decide
  · simp only [hev]
    decide

/-- C4, witness: the theorem at checker status 1, fixer status 1. -/
theorem C4_fixer_failure_witness :
    (gate 1 1 0).events = [.run fmtCheckCmd, .run fmtFixCmd] ∧
    outputLines (gate 1 1 0) = [] ∧
    Event.run testCmd ∉ (gate 1 1 0).events :=
  C4_fixer_failure 1 1 0 (by decide) (by decide)

/-- C5: on the formatting-drift branch the trace is exactly: checker
started, fixer started, notice printed, in this order (the `events` list
is ordered by occurrence), and the process exit — with the original
checker status — comes after the whole trace. -/
theorem C5_drift_order (c f t : Nat) (hc : c ≠ 0) (hf : f = 0) :
    (gate c f t).events =
      [.run fmtCheckCmd, .run fmtFixCmd, .print noticeLine] ∧
    (gate c f t).exitStatus = c := by
  constructor
  · exact gate_drift_events c f t hc hf
  · rw [gate_drift_eq c f t hc hf]

/-- C5, witness: the theorem at checker status 1, fixer status 0. -/
theorem C5_drift_order_witness :
    (gate 1 0 0).events =
      [.run fmtCheckCmd, .run fmtFixCmd, .print noticeLine] ∧
    (gate 1 0 0).exitStatus = 1 :=
  C5_drift_order 1 0 0 (by decide) rfl

/-- C6: idempotence with respect to the fixer.  If the first run took
the drift branch (checker non-zero, fixer succeeded, so the notice was
printed) and the second run's checker returns 0 (no other changes after
the auto-fix), then the second run never starts the fixer, prints
nothing, and starts the test runner. -/
theorem C6_idempotent (c1 f1 t1 c2 f2 t2 : Nat)
    (h1 : c1 ≠ 0) (h2 : f1 = 0) (h3 : c2 = 0) :
    outputLines (gate c1 f1 t1) = [noticeLine] ∧
    Event.run fmtFixCmd ∉ (gate c2 f2 t2).events ∧
    outputLines (gate c2 f2 t2) = [] ∧
    Event.run testCmd ∈ (gate c2 f2 t2).events := by
  subst h3
  have hev1 := gate_drift_events c1 f1 t1 h1 h2
  refine ⟨?_, ?_, ?_, ?_⟩
  · simp only [outputLines, hev1]
    decide
  · simp only [gate_pass_events]
    decide
  · simp only [outputLines, gate_pass_events]
    decide
  · simp only [gate_pass_events]
    decide

/-- C6, witness: the theorem with first run (2, 0, 0) and second run
(0, 0, 0). -/
theorem C6_idempotent_witness :
    outputLines (gate 2 0 0) = [noticeLine] ∧
    Event.run fmtFixCmd ∉ (gate 0 0 0).events ∧
    outputLines (gate 0 0 0) = [] ∧
    Event.run testCmd ∈ (gate 0 0 0).events :=
  C6_idempotent 2 0 0 0 0 0 (by decide) rfl rfl

/-- C7: in every run the gate writes to standard output exactly the one
notice line on the drift branch with a succeeding fixer, and nothing at
all otherwise — in particular nothing when the fixer fails and nothing
when the test runner fails. -/
theorem C7_stdout_only_drift (c f t : Nat) :
    outputLines (gate c f t) =
      (if c ≠ 0 ∧ f = 0 then [noticeLine] else []) := by
  by_cases hc : c = 0
  · subst hc
    rw [if_neg (by simp)]
    simp only [outputLines, gate_pass_events]
    decide
  · by_cases hf : f = 0
    · rw [if_pos ⟨hc, hf⟩]
      simp only [outputLines, gate_drift_events c f t hc hf]
      decide
    · rw [if_neg (by tauto)]
      simp only [outputLines, gate_fixfail_events c f t hc hf]
      decide

/-- C8: in every run the first subprocess started is the format check,
whose argument list carries the check-only and quiet flags; the fixer is
started exactly when the checker reports non-zero, and the test runner
exactly when the checker reports 0 — so each of the two is started only
conditionally, after the check. -/
theorem C8_check_first (c f t : Nat) :
    (gate c f t).events.head? = some (.run fmtCheckCmd) ∧
    "--check" ∈ fmtCheckCmd ∧ "--quiet" ∈ fmtCheckCmd ∧
    (Event.run fmtFixCmd ∈ (gate c f t).events ↔ c ≠ 0) ∧
    (Event.run testCmd ∈ (gate c f t).events ↔ c = 0) := by
  by_cases hc : c = 0
  · subst hc
    refine ⟨?_, by decide, by decide, ?_, ?_⟩
    · simp only [gate_pass_events]
      decide
    · simp only [gate_pass_events]
      exact iff_of_false (by decide) (by simp)
    · simp only [gate_pass_events]
      exact iff_of_true (by decide) (by decide)
  · by_cases hf : f = 0
    · refine ⟨?_, by decide, by decide, ?_, ?_⟩
      · simp only [gate_drift_events c f t hc hf]
        decide
      · simp only [gate_drift_events c f t hc hf]
        exact iff_of_true (by decide) hc
      · simp only [gate_drift_events c f t hc hf]
        exact iff_of_false (by decide) hc
    · refine ⟨?_, by decide, by decide, ?_, ?_⟩
      · simp only [gate_fixfail_events c f t hc hf]
        decide
      · simp only [gate_fixfail_events c f t hc hf]
        exact iff_of_true (by decide) hc
      · simp only [gate_fixfail_events c f t hc hf]
        exact iff_of_false (by decide) hc

/-- C9: a non-zero status from `check_call` surfaces as an unhandled
`CalledProcessError`, so the interpreter exits with 1 rather than with
that status: a failing test runner (checker 0, tests non-zero) gives
gate exit status 1 whatever the test status was, and a failing fixer
(checker non-zero, fixer non-zero) likewise gives 1, not the fixer's
status. -/
theorem C9_unhandled_exit_one (c f t : Nat) :
    (c = 0 → t ≠ 0 → (gate c f t).exitStatus = 1) ∧
    (c ≠ 0 → f ≠ 0 → (gate c f t).exitStatus = 1) := by
  constructor
  · intro hc ht
    subst hc
    simp [gate, ht]
  · intro hc hf
    simp [gate, hc, hf]

/-- C9, witness: failing tests (0, 0, 2) and a failing fixer (3, 2, 0)
both end with gate exit status 1. -/
theorem C9_unhandled_exit_one_witness :
    (gate 0 0 2).exitStatus = 1 ∧ (gate 3 2 0).exitStatus = 1 :=
  ⟨(C9_unhandled_exit_one 0 0 2).1 rfl (by decide),
   (C9_unhandled_exit_one 3 2 0).2 (by decide) (by decide)⟩

/-- C10: the whole observable outcome is a function of the three
subprocess statuses only: two invocations with identical statuses behave
identically whatever the command-line arguments and environment are, and
both equal the argument-free gate — the script never reads either. -/
theorem C10_no_cli_dependence (a1 : List String) (e1 : List (String × String))
    (a2 : List String) (e2 : List (String × String)) (c f t : Nat) :
    gateCLI a1 e1 c f t = gateCLI a2 e2 c f t ∧
    gateCLI a1 e1 c f t = gate c f t :=
  ⟨rfl, rfl⟩

end PreCommit
